import Mathlib

/-!
Verification of the row-to-payload normalization and webhook-delivery routine
of the spreadsheet-bound trigger scripts in this repository.

The scripts come in near-duplicate variants that differ in column offsets and
in small details of the normalization.  We embed the three variants the
properties below are about:

* variant A — `GOOGLE-APPS-SCRIPT-WEBHOOK-TRIGGER.js` (14-column layout with a
  leading Timestamp column): `getFormData`, `sendToWebhook`, `onFormSubmit`;
* variant B — the first unnamed script (13-column "leads" layout):
  `getFormDataB`, `onFormSubmitB`;
* variant V2 — the second script of the other unnamed file (13-column "leads"
  layout, trims every extracted field): `getFormDataV2`.

Cell values from `getValues()` are loosely typed JavaScript values; we embed
them as the inductive `Cell` below, together with executable models of the
JavaScript operations the scripts apply to them (truthiness, `toString`,
`||`, `trim`, `toLowerCase`, `JSON.stringify`).  The current wall-clock time
is passed in explicitly as `now`, the `toISOString()` rendering of `new
Date()` at the moment the routine runs.  The HTTP transport is passed in as a
function `fetch : Payload → FetchOutcome`, where a `FetchOutcome.failure`
models `UrlFetchApp.fetch` throwing a transport exception (with the given
`toString` rendering) and `FetchOutcome.response` models a received HTTP
response (any status code, since `muteHttpExceptions: true` is set).

`jsTrim` / `jsToLower` model JavaScript `trim()` / `toLowerCase()` on the
ASCII range, which covers all strings the scripts handle in practice.
-/

namespace WebhookTrigger

/-- A spreadsheet cell value as delivered by `getValues()`: a string, a
number, a boolean, a `Date` object, or absent (`undefined`, the value of an
index past the end of the row array).  A `Date` object is characterized by
the two renderings the scripts can observe: its `toISOString()` output
(`iso`) and its default `toString()` output (`disp`). -/
inductive Cell where
  | str (s : String)
  | num (n : Int)
  | boolean (b : Bool)
  | date (iso disp : String)
  | empty
  deriving DecidableEq, Repr

/-- The characters JavaScript `trim()` removes (the ASCII white-space
characters; the scripts only ever meet these). -/
def isWhitespaceChar (c : Char) : Bool :=
  c.toNat = 32 || c.toNat = 9 || c.toNat = 10 || c.toNat = 11 || c.toNat = 12 || c.toNat = 13

/-- JavaScript `s.trim()`: strip leading and trailing whitespace. -/
def jsTrim (s : String) : String :=
  String.mk (((s.data.dropWhile isWhitespaceChar).reverse.dropWhile isWhitespaceChar).reverse)

/-- JavaScript `toLowerCase()` on one character (ASCII range, which is all
the scripts' data uses). -/
def lowerChar (c : Char) : Char :=
  if 65 ≤ c.toNat ∧ c.toNat ≤ 90 then Char.ofNat (c.toNat + 32) else c

/-- JavaScript `s.toLowerCase()`. -/
def jsToLower (s : String) : String := String.mk (s.data.map lowerChar)

/-- JavaScript truthiness of a cell value: empty string, zero, `false` and
`undefined` are falsy; every `Date` object is truthy. -/
def jsTruthy : Cell → Bool
  | Cell.str s => !(s == "")
  | Cell.num n => n != 0
  | Cell.boolean b => b
  | Cell.date _ _ => true
  | Cell.empty => false

/-- JavaScript string coercion `v.toString()` of a cell value (a `Date`
yields its default display rendering, not its ISO form). -/
def cellToString : Cell → String
  | Cell.str s => s
  | Cell.num n => toString n
  | Cell.boolean b => if b then "true" else "false"
  | Cell.date _ disp => disp
  | Cell.empty => "undefined"

/-- JavaScript `a || b`: `a` when truthy, else `b`. -/
def jsOr (a b : Cell) : Cell := if jsTruthy a then a else b

/-- `rowData[i]`: indexing past the end of the row array yields `undefined`
(`Cell.empty`). -/
def getCell (rowData : List Cell) (i : Nat) : Cell := rowData.getD i Cell.empty

/-- Column mapping of variant A (`GOOGLE-APPS-SCRIPT-WEBHOOK-TRIGGER.js`):
1-based column positions, with the Forms auto-inserted Timestamp at column
A. -/
structure ColumnMapping where
  TIMESTAMP : Nat
  NAME : Nat
  EMAIL : Nat
  PHONE : Nat
  LANGUAGE : Nat
  STATUS : Nat
  DATE_ADDED : Nat
  RESPONSE : Nat
  RESPONSE_DATE : Nat
  COMMENTS : Nat

/-- The `COLUMN_MAPPING` constant of variant A. -/
def COLUMN_MAPPING : ColumnMapping where
  TIMESTAMP := 1
  NAME := 2
  EMAIL := 3
  PHONE := 4
  LANGUAGE := 5
  STATUS := 6
  DATE_ADDED := 7
  RESPONSE := 12
  RESPONSE_DATE := 13
  COMMENTS := 14

/-- Column mapping shared by the "leads"-layout variants (no Timestamp
column). -/
structure ColumnMappingB where
  NAME : Nat
  EMAIL : Nat
  PHONE : Nat
  LANGUAGE : Nat
  STATUS : Nat
  DATE_ADDED : Nat
  EMAIL_1_DATE : Nat
  EMAIL_2_DATE : Nat
  EMAIL_3_DATE : Nat
  NOTES : Nat
  RESPONSE : Nat
  RESPONSE_DATE : Nat
  COMMENTS : Nat

/-- The `COLUMN_MAPPING` constant of the "leads"-layout variants. -/
def COLUMN_MAPPING_B : ColumnMappingB where
  NAME := 1
  EMAIL := 2
  PHONE := 3
  LANGUAGE := 4
  STATUS := 5
  DATE_ADDED := 6
  EMAIL_1_DATE := 7
  EMAIL_2_DATE := 8
  EMAIL_3_DATE := 9
  NOTES := 10
  RESPONSE := 11
  RESPONSE_DATE := 12
  COMMENTS := 13

/-- The record built by variant A's `getFormData` (field values are still
loosely typed JavaScript values, hence `Cell`). -/
structure FormData where
  timestamp : Cell
  name : Cell
  email : Cell
  phone : Cell
  language : Cell
  status : Cell
  response : Cell
  responseDate : Cell
  comments : Cell
  attendance : Cell
  deriving DecidableEq, Repr

/-- The record built by the "leads"-layout variants' `getFormData` (also
carries `dateAdded`). -/
structure FormDataD where
  timestamp : Cell
  name : Cell
  email : Cell
  phone : Cell
  language : Cell
  status : Cell
  dateAdded : Cell
  response : Cell
  responseDate : Cell
  comments : Cell
  attendance : Cell
  deriving DecidableEq, Repr

/-- Variant A `getFormData(rowData)`.  `now` is the `toISOString()` rendering
of `new Date()` at the moment of the call; the source's
`timestamp = new Date(); ... if (timestamp instanceof Date) timestamp =
timestamp.toISOString()` is embedded as the fused `Cell.str now`. -/
def getFormData (rowData : List Cell) (now : String) : FormData :=
  let t0 := getCell rowData (COLUMN_MAPPING.TIMESTAMP - 1)
  let t1 :=
    if !jsTruthy t0 && jsTruthy (getCell rowData (COLUMN_MAPPING.DATE_ADDED - 1)) then
      getCell rowData (COLUMN_MAPPING.DATE_ADDED - 1)
    else t0
  let timestamp :=
    if jsTruthy t1 then
      match t1 with
      | Cell.date iso _ => Cell.str iso
      | c => c
    else Cell.str now
  let name0 := jsOr (getCell rowData (COLUMN_MAPPING.NAME - 1)) (Cell.str "")
  let email0 := jsOr (getCell rowData (COLUMN_MAPPING.EMAIL - 1)) (Cell.str "")
  let phone0 := jsOr (getCell rowData (COLUMN_MAPPING.PHONE - 1)) (Cell.str "")
  let language := jsOr (getCell rowData (COLUMN_MAPPING.LANGUAGE - 1)) (Cell.str "en")
  let status := jsOr (getCell rowData (COLUMN_MAPPING.STATUS - 1)) (Cell.str "")
  let response := jsOr (getCell rowData (COLUMN_MAPPING.RESPONSE - 1)) (Cell.str "")
  let responseDate := jsOr (getCell rowData (COLUMN_MAPPING.RESPONSE_DATE - 1)) (Cell.str "")
  let comments := jsOr (getCell rowData (COLUMN_MAPPING.COMMENTS - 1)) (Cell.str "")
  let email := if jsTruthy email0 then Cell.str (jsToLower (jsTrim (cellToString email0))) else email0
  let name := if jsTruthy name0 then Cell.str (jsTrim (cellToString name0)) else name0
  let phone := if jsTruthy phone0 then Cell.str (jsTrim (cellToString phone0)) else phone0
  let attendance := jsOr response (Cell.str "")
  ⟨timestamp, name, email, phone, language, status, response, responseDate, comments, attendance⟩

/-- Variant B `getFormData(rowData)` (first unnamed script): timestamp from
the Date Added column with `if (!timestamp) timestamp = new Date()` before
the type dispatch, fields extracted with bare `|| default`, post-hoc cleanup
of email/name/phone only. -/
def getFormDataB (rowData : List Cell) (now : String) : FormDataD :=
  let t0 := getCell rowData (COLUMN_MAPPING_B.DATE_ADDED - 1)
  let timestamp :=
    if !jsTruthy t0 then Cell.str now
    else
      match t0 with
      | Cell.date iso _ => Cell.str iso
      | Cell.str s => Cell.str s
      | _ => Cell.str now
  let name0 := jsOr (getCell rowData (COLUMN_MAPPING_B.NAME - 1)) (Cell.str "")
  let email0 := jsOr (getCell rowData (COLUMN_MAPPING_B.EMAIL - 1)) (Cell.str "")
  let phone0 := jsOr (getCell rowData (COLUMN_MAPPING_B.PHONE - 1)) (Cell.str "")
  let language := jsOr (getCell rowData (COLUMN_MAPPING_B.LANGUAGE - 1)) (Cell.str "en")
  let status := jsOr (getCell rowData (COLUMN_MAPPING_B.STATUS - 1)) (Cell.str "")
  let dateAdded := jsOr (getCell rowData (COLUMN_MAPPING_B.DATE_ADDED - 1)) (Cell.str "")
  let response := jsOr (getCell rowData (COLUMN_MAPPING_B.RESPONSE - 1)) (Cell.str "")
  let responseDate := jsOr (getCell rowData (COLUMN_MAPPING_B.RESPONSE_DATE - 1)) (Cell.str "")
  let comments := jsOr (getCell rowData (COLUMN_MAPPING_B.COMMENTS - 1)) (Cell.str "")
  let email := if jsTruthy email0 then Cell.str (jsToLower (jsTrim (cellToString email0))) else email0
  let name := if jsTruthy name0 then Cell.str (jsTrim (cellToString name0)) else name0
  let phone := if jsTruthy phone0 then Cell.str (jsTrim (cellToString phone0)) else phone0
  let attendance := jsOr response (Cell.str "")
  ⟨timestamp, name, email, phone, language, status, dateAdded, response, responseDate, comments,
    attendance⟩

/-- Variant V2 `getFormData(rowData)` (second script of the other unnamed
file): timestamp keeps a string only when its `trim()` is non-empty, every
field is extracted as `(rowData[i] || default).toString().trim()`, and
`language` is additionally lowercased. -/
def getFormDataV2 (rowData : List Cell) (now : String) : FormDataD :=
  let t0 := getCell rowData (COLUMN_MAPPING_B.DATE_ADDED - 1)
  let timestamp :=
    match t0 with
    | Cell.date iso _ => Cell.str iso
    | Cell.str s => if !(s == "") && !(jsTrim s == "") then Cell.str s else Cell.str now
    | _ => Cell.str now
  let name :=
    Cell.str (jsTrim (cellToString (jsOr (getCell rowData (COLUMN_MAPPING_B.NAME - 1)) (Cell.str ""))))
  let email0 :=
    Cell.str (jsTrim (cellToString (jsOr (getCell rowData (COLUMN_MAPPING_B.EMAIL - 1)) (Cell.str ""))))
  let phone :=
    Cell.str (jsTrim (cellToString (jsOr (getCell rowData (COLUMN_MAPPING_B.PHONE - 1)) (Cell.str ""))))
  let language :=
    Cell.str
      (jsToLower (jsTrim (cellToString (jsOr (getCell rowData (COLUMN_MAPPING_B.LANGUAGE - 1)) (Cell.str "en")))))
  let status :=
    Cell.str
      (jsTrim (cellToString (jsOr (getCell rowData (COLUMN_MAPPING_B.STATUS - 1)) (Cell.str ""))))
  let dateAdded := jsOr (getCell rowData (COLUMN_MAPPING_B.DATE_ADDED - 1)) (Cell.str "")
  let response :=
    Cell.str
      (jsTrim (cellToString (jsOr (getCell rowData (COLUMN_MAPPING_B.RESPONSE - 1)) (Cell.str ""))))
  let responseDate :=
    Cell.str
      (jsTrim (cellToString (jsOr (getCell rowData (COLUMN_MAPPING_B.RESPONSE_DATE - 1)) (Cell.str ""))))
  let comments :=
    Cell.str
      (jsTrim (cellToString (jsOr (getCell rowData (COLUMN_MAPPING_B.COMMENTS - 1)) (Cell.str ""))))
  let email := if jsTruthy email0 then Cell.str (jsTrim (jsToLower (cellToString email0))) else email0
  let attendance := jsOr response (Cell.str "")
  ⟨timestamp, name, email, phone, language, status, dateAdded, response, responseDate, comments,
    attendance⟩

/-- The JSON payload object built inside `sendToWebhook` (keys in insertion
order, as serialized by `JSON.stringify`). -/
structure Payload where
  timestamp : Cell
  name : Cell
  email : Cell
  phone : Cell
  language : Cell
  status : Cell
  attendance : Cell
  response : Cell
  responseDate : Cell
  comments : Cell
  deriving DecidableEq, Repr

/-- The payload-building step of `sendToWebhook` (variant A record shape). -/
def buildPayload (data : FormData) : Payload :=
  ⟨data.timestamp, data.name, data.email,
    jsOr data.phone (Cell.str ""),
    jsOr data.language (Cell.str "en"),
    jsOr data.status (Cell.str ""),
    jsOr data.attendance (jsOr data.response (Cell.str "")),
    jsOr data.response (Cell.str ""),
    jsOr data.responseDate (Cell.str ""),
    jsOr data.comments (Cell.str "")⟩

/-- The payload-building step of `sendToWebhook` for the "leads"-layout
record shape (the formula is identical; `dateAdded` is not serialized). -/
def buildPayloadD (data : FormDataD) : Payload :=
  ⟨data.timestamp, data.name, data.email,
    jsOr data.phone (Cell.str ""),
    jsOr data.language (Cell.str "en"),
    jsOr data.status (Cell.str ""),
    jsOr data.attendance (jsOr data.response (Cell.str "")),
    jsOr data.response (Cell.str ""),
    jsOr data.responseDate (Cell.str ""),
    jsOr data.comments (Cell.str "")⟩

/-- Outcome of `UrlFetchApp.fetch` with `muteHttpExceptions: true`: either an
HTTP response (any status code) or a thrown transport exception, carrying its
`toString()` rendering. -/
inductive FetchOutcome where
  | response (code : Nat) (body : String)
  | failure (err : String)
  deriving DecidableEq, Repr

/-- The result object returned by `sendToWebhook`: `none` fields model
absent keys of the JavaScript object literals. -/
structure DeliveryResult where
  success : Bool
  statusCode : Option Nat
  response : Option String
  error : Option String
  deriving DecidableEq, Repr

/-- `sendToWebhook(data)` of variant A, with the HTTP transport passed in
explicitly.  The `try/catch` of the source is the `FetchOutcome.failure`
branch: every transport exception is converted into a `DeliveryResult`. -/
def sendToWebhook (data : FormData) (fetch : Payload → FetchOutcome) : DeliveryResult :=
  match fetch (buildPayload data) with
  | FetchOutcome.response code body =>
    if 200 ≤ code ∧ code < 300 then
      ⟨true, some code, some body, none⟩
    else
      ⟨false, some code, none, some body⟩
  | FetchOutcome.failure err => ⟨false, none, none, some err⟩

/-- `sendToWebhook(data)` of the "leads"-layout variants (identical logic on
the `FormDataD` record shape). -/
def sendToWebhookD (data : FormDataD) (fetch : Payload → FetchOutcome) : DeliveryResult :=
  match fetch (buildPayloadD data) with
  | FetchOutcome.response code body =>
    if 200 ≤ code ∧ code < 300 then
      ⟨true, some code, some body, none⟩
    else
      ⟨false, some code, none, some body⟩
  | FetchOutcome.failure err => ⟨false, none, none, some err⟩

/-- Lower-case hexadecimal digit, for the `\u00XX` escapes of
`JSON.stringify`. -/
def hexDigit (n : Nat) : Char :=
  if n < 10 then Char.ofNat (48 + n) else Char.ofNat (87 + n % 16)

/-- `JSON.stringify` escaping of one character of a string value (quote,
backslash, and the control characters; everything else passes through). -/
def jsonEscapeChar (c : Char) : String :=
  if c.toNat = 34 then "\\\""
  else if c.toNat = 92 then "\\\\"
  else if c.toNat = 8 then "\\b"
  else if c.toNat = 9 then "\\t"
  else if c.toNat = 10 then "\\n"
  else if c.toNat = 12 then "\\f"
  else if c.toNat = 13 then "\\r"
  else if c.toNat < 32 then
    "\\u00" ++ String.singleton (hexDigit (c.toNat / 16)) ++ String.singleton (hexDigit (c.toNat % 16))
  else String.singleton c

/-- `JSON.stringify` rendering of a string value, quotes included. -/
def jsonQuote (s : String) : String :=
  "\"" ++ String.join (s.toList.map jsonEscapeChar) ++ "\""

/-- `JSON.stringify` rendering of one cell value: a `Date` serializes via its
`toJSON` (its ISO string); `undefined` yields `none`, meaning the key is
omitted from the object. -/
def cellToJson : Cell → Option String
  | Cell.str s => some (jsonQuote s)
  | Cell.num n => some (toString n)
  | Cell.boolean b => some (if b then "true" else "false")
  | Cell.date iso _ => some (jsonQuote iso)
  | Cell.empty => none

/-- One `"key":value` member of the serialized object, or `none` when the
value is `undefined`. -/
def jsonField (key : String) (c : Cell) : Option String :=
  (cellToJson c).map (fun v => jsonQuote key ++ ":" ++ v)

/-- `JSON.stringify(payload)`: members in insertion order, no whitespace. -/
def jsonOfPayload (p : Payload) : String :=
  let fields := [jsonField "timestamp" p.timestamp, jsonField "name" p.name,
    jsonField "email" p.email, jsonField "phone" p.phone,
    jsonField "language" p.language, jsonField "status" p.status,
    jsonField "attendance" p.attendance, jsonField "response" p.response,
    jsonField "responseDate" p.responseDate, jsonField "comments" p.comments]
  "\x7b" ++ String.intercalate "," (fields.filterMap id) ++ "\x7d"

/-- The sheet object, abstracted to what the handlers read from it: the cell
values of its last row (`getRange(lastRow, 1, 1, lastColumn).getValues()[0]`). -/
structure Sheet where
  lastRowData : List Cell

/-- The event's `source` spreadsheet: `sheet` is the result of
`getSheetByName(SHEET_NAME)`, `none` when that sheet does not exist. -/
structure Source where
  sheet : Option Sheet

/-- The trigger event object `e`; `source` is `none` when the event lacks a
`source` property (e.g. a manual run passing a bare object). -/
structure Event where
  source : Option Source

/-- Observable outcome of one run of a trigger handler. -/
inductive TriggerResult where
  | noEvent
  | noSheet
  | missingEmail
  | dispatched (r : DeliveryResult)
  | faultCaught
  deriving DecidableEq, Repr

/-- The required-field guard `!formData.email || formData.email.trim() === ''`.
`none` models the TypeError of calling `.trim()` on a truthy non-string
value (unreachable for records produced by the normalizers), which the
handler's top-level `catch` turns into a logged no-op. -/
def emailGuard (c : Cell) : Option Bool :=
  if jsTruthy c then
    match c with
    | Cell.str s => some (jsTrim s == "")
    | _ => none
  else some true

/-- `onFormSubmit(e)` of variant A.  The handler has no explicit event
check; a missing `e` or missing `e.source` raises a TypeError at
`e.source.getSheetByName(...)`, which the top-level `try/catch` turns into a
logged return (`faultCaught`).  The second component of the result is the
list of payloads actually POSTed to the webhook. -/
def onFormSubmit (e : Option Event) (fetch : Payload → FetchOutcome) (now : String) :
    TriggerResult × List Payload :=
  match e with
  | none => (TriggerResult.faultCaught, [])
  | some ev =>
    match ev.source with
    | none => (TriggerResult.faultCaught, [])
    | some src =>
      match src.sheet with
      | none => (TriggerResult.noSheet, [])
      | some sheet =>
        let formData := getFormData sheet.lastRowData now
        match emailGuard formData.email with
        | none => (TriggerResult.faultCaught, [])
        | some true => (TriggerResult.missingEmail, [])
        | some false =>
          (TriggerResult.dispatched (sendToWebhook formData fetch), [buildPayload formData])

/-- `onFormSubmit(e)` of variant B (first unnamed script), which starts with
the explicit guard `if (!e || !e.source) { ...; return; }`. -/
def onFormSubmitB (e : Option Event) (fetch : Payload → FetchOutcome) (now : String) :
    TriggerResult × List Payload :=
  match e with
  | none => (TriggerResult.noEvent, [])
  | some ev =>
    match ev.source with
    | none => (TriggerResult.noEvent, [])
    | some src =>
      match src.sheet with
      | none => (TriggerResult.noSheet, [])
      | some sheet =>
        let formData := getFormDataB sheet.lastRowData now
        match emailGuard formData.email with
        | none => (TriggerResult.faultCaught, [])
        | some true => (TriggerResult.missingEmail, [])
        | some false =>
          (TriggerResult.dispatched (sendToWebhookD formData fetch), [buildPayloadD formData])

/-- A record with every field the empty string, used to instantiate the
dispatcher theorems at a concrete record. -/
def emptyFormData : FormData :=
  ⟨Cell.str "", Cell.str "", Cell.str "", Cell.str "", Cell.str "", Cell.str "",
    Cell.str "", Cell.str "", Cell.str "", Cell.str ""⟩

/-! ## Helper lemmas -/

theorem jsTruthy_str (s : String) : jsTruthy (Cell.str s) = !(s == "") := rfl

theorem jsTruthy_num (n : Int) : jsTruthy (Cell.num n) = (n != 0) := rfl

theorem jsTruthy_boolean (b : Bool) : jsTruthy (Cell.boolean b) = b := rfl

theorem jsTruthy_date (i d : String) : jsTruthy (Cell.date i d) = true := rfl

theorem jsTruthy_empty : jsTruthy Cell.empty = false := rfl

theorem jsOr_empty_idem (a : Cell) :
    jsOr (jsOr a (Cell.str "")) (Cell.str "") = jsOr a (Cell.str "") := by
  cases a with
  | str s =>
    by_cases h : s = ""
    · subst h
      rfl
    · simp [jsOr, jsTruthy, h]
  | num n =>
    by_cases h : n = 0
    · subst h
      rfl
    · simp [jsOr, jsTruthy, h]
  | boolean b => cases b <;> rfl
  | date iso disp => rfl
  | empty => rfl

theorem jsOr_self (a : Cell) : jsOr a a = a := by
  simp [jsOr]

/-- An all-falsy row yields a falsy value at every index (in range because
every member is falsy, out of range because `undefined` is falsy). -/
theorem jsTruthy_getCell_false (row : List Cell) (i : Nat)
    (h : ∀ c ∈ row, jsTruthy c = false) : jsTruthy (getCell row i) = false := by
  induction row generalizing i with
  | nil => cases i <;> rfl
  | cons a t ih =>
    cases i with
    | zero => exact h a (List.mem_cons_self a t)
    | succ j => exact ih j (fun c hc => h c (List.mem_cons_of_mem a hc))

/-- A blank (absent or whitespace-only) email cell normalizes to the empty
string under variant A's `getFormData`. -/
theorem getFormData_email_blank (row : List Cell) (now : String)
    (h : getCell row (COLUMN_MAPPING.EMAIL - 1) = Cell.empty ∨
      ∃ s, getCell row (COLUMN_MAPPING.EMAIL - 1) = Cell.str s ∧ jsTrim s = "") :
    (getFormData row now).email = Cell.str "" := by
  rcases h with h | ⟨s, h, hs⟩
  · simp [getFormData, h, jsOr, jsTruthy]
  · by_cases h0 : s = ""
    · subst h0
      simp [getFormData, h, jsOr, jsTruthy]
    · simp [getFormData, h, jsOr, jsTruthy, cellToString, h0, hs]
      decide

/-! ## Properties of the normalizer, dispatcher and trigger handlers -/

/-- Claim C1: for every raw row whose configured email column is blank or
whitespace-only (so the normalized email is the empty string), the trigger
handler `onFormSubmit` reports the missing email and returns without ever
invoking the dispatcher: the list of webhook calls it performs is empty. -/
theorem onFormSubmit_blank_email_no_dispatch (row : List Cell)
    (fetch : Payload → FetchOutcome) (now : String)
    (h : getCell row (COLUMN_MAPPING.EMAIL - 1) = Cell.empty ∨
      ∃ s, getCell row (COLUMN_MAPPING.EMAIL - 1) = Cell.str s ∧ jsTrim s = "") :
    onFormSubmit (some ⟨some ⟨some ⟨row⟩⟩⟩) fetch now = (TriggerResult.missingEmail, []) := by
  have he := getFormData_email_blank row now h
  simp [onFormSubmit, he, emailGuard, jsTruthy]

/-- Witness for C1: a row whose email cell is whitespace-only is dropped
without a webhook call. -/
theorem onFormSubmit_blank_email_no_dispatch_witness :
    onFormSubmit (some ⟨some ⟨some ⟨[Cell.empty, Cell.empty, Cell.str "   "]⟩⟩⟩)
      (fun _ => FetchOutcome.response 200 "OK") "2026-01-01T00:00:00.000Z" =
      (TriggerResult.missingEmail, []) :=
  onFormSubmit_blank_email_no_dispatch [Cell.empty, Cell.empty, Cell.str "   "]
    (fun _ => FetchOutcome.response 200 "OK") "2026-01-01T00:00:00.000Z"
    (Or.inr ⟨"   ", by decide, by decide⟩)

/-- Claim C2: for every raw row whose email cell holds a string, the email
field produced by `getFormData` is that string trimmed of surrounding
whitespace and converted to lowercase. -/
theorem getFormData_email_normalized (rowData : List Cell) (now s : String)
    (h : getCell rowData (COLUMN_MAPPING.EMAIL - 1) = Cell.str s) :
    (getFormData rowData now).email = Cell.str (jsToLower (jsTrim s)) := by
  by_cases hs : s = ""
  · subst hs
    simp [getFormData, h, jsOr, jsTruthy]
    decide
  · simp [getFormData, h, jsOr, jsTruthy, cellToString, hs]

/-- Witness for C2: `"  Test@Example.COM "` normalizes to
`"test@example.com"`. -/
theorem getFormData_email_normalized_witness :
    (getFormData [Cell.empty, Cell.empty, Cell.str "  Test@Example.COM "]
      "2026-01-01T00:00:00.000Z").email = Cell.str "test@example.com" := by
  have h := getFormData_email_normalized
    [Cell.empty, Cell.empty, Cell.str "  Test@Example.COM "]
    "2026-01-01T00:00:00.000Z" "  Test@Example.COM " (by decide)
  rw [h]
  decide

/-- Counterexample to C3 as stated: in variant A the timestamp does NOT
prefer the configured "date added" column.  Here the date-added cell holds a
date-typed value whose ISO form is `2025-05-05T00:00:00.000Z`, yet the
produced timestamp is the truthy string found in the configured timestamp
column (column A), not that ISO form. -/
theorem timestamp_prefers_timestamp_column_cx :
    (getFormData [Cell.str "2024-01-01 10:00", Cell.empty, Cell.empty, Cell.empty, Cell.empty,
      Cell.empty, Cell.date "2025-05-05T00:00:00.000Z" "Mon May 05 2025"]
      "2026-01-01T00:00:00.000Z").timestamp = Cell.str "2024-01-01 10:00" ∧
    Cell.str "2024-01-01 10:00" ≠ Cell.str "2025-05-05T00:00:00.000Z" := by decide

/-- Claim C3 (amended): `getFormData` resolves the timestamp by preferring
the configured timestamp column (column A) and falling back to the
configured "date added" column only when the former is falsy; a date-typed
chosen value is formatted as ISO-8601, a non-empty string passes through
unchanged, and when both cells are falsy the current wall-clock time's
ISO-8601 form is used. -/
theorem getFormData_timestamp_resolution (row : List Cell) (now : String) :
    (∀ iso disp, getCell row (COLUMN_MAPPING.TIMESTAMP - 1) = Cell.date iso disp →
      (getFormData row now).timestamp = Cell.str iso) ∧
    (∀ s, s ≠ "" → getCell row (COLUMN_MAPPING.TIMESTAMP - 1) = Cell.str s →
      (getFormData row now).timestamp = Cell.str s) ∧
    (jsTruthy (getCell row (COLUMN_MAPPING.TIMESTAMP - 1)) = false →
      (∀ iso disp, getCell row (COLUMN_MAPPING.DATE_ADDED - 1) = Cell.date iso disp →
        (getFormData row now).timestamp = Cell.str iso) ∧
      (∀ s, s ≠ "" → getCell row (COLUMN_MAPPING.DATE_ADDED - 1) = Cell.str s →
        (getFormData row now).timestamp = Cell.str s) ∧
      (jsTruthy (getCell row (COLUMN_MAPPING.DATE_ADDED - 1)) = false →
        (getFormData row now).timestamp = Cell.str now)) := by
  refine ⟨?_, ?_, fun h0 => ⟨?_, ?_, ?_⟩⟩
  · intro iso disp h
    simp [getFormData, h, jsTruthy]
  · intro s hs h
    simp [getFormData, h, jsTruthy, hs]
  · intro iso disp h
    simp [getFormData, h, h0, jsTruthy_date]
  · intro s hs h
    simp [getFormData, h, h0, jsTruthy_str, hs]
  · intro h1
    simp [getFormData, h0, h1]

/-- Witness for C3 (amended): a date-typed timestamp cell is converted to
its ISO-8601 form. -/
theorem getFormData_timestamp_resolution_witness :
    (getFormData [Cell.date "2026-02-03T08:00:00.000Z" "Tue Feb 03 2026"]
      "2026-01-01T00:00:00.000Z").timestamp = Cell.str "2026-02-03T08:00:00.000Z" :=
  (getFormData_timestamp_resolution [Cell.date "2026-02-03T08:00:00.000Z" "Tue Feb 03 2026"]
    "2026-01-01T00:00:00.000Z").1 "2026-02-03T08:00:00.000Z" "Tue Feb 03 2026" (by decide)

/-- Claim C4: when an HTTP response is received, `sendToWebhook` returns
success with the status code and raw body exactly for status codes in
[200, 300), and failure with the status code and the body as error detail
for every other status code; in particular status 200 with body "OK" yields
a success result and status 500 with body "Internal Error" a failure
result carrying that body as the error. -/
theorem sendToWebhook_http_outcome :
    (∀ (data : FormData) (code : Nat) (body : String),
      sendToWebhook data (fun _ => FetchOutcome.response code body) =
        if 200 ≤ code ∧ code < 300 then ⟨true, some code, some body, none⟩
        else ⟨false, some code, none, some body⟩) ∧
    sendToWebhook emptyFormData (fun _ => FetchOutcome.response 200 "OK") =
      ⟨true, some 200, some "OK", none⟩ ∧
    sendToWebhook emptyFormData (fun _ => FetchOutcome.response 500 "Internal Error") =
      ⟨false, some 500, none, some "Internal Error"⟩ :=
  ⟨fun _ _ _ => rfl, by decide, by decide⟩

/-- Claim C5: a transport-level failure of the HTTP call never escapes
`sendToWebhook` (the embedding is a total function into `DeliveryResult`):
the result has `success = false`, no status code, and the thrown error's
description — non-empty whenever that description is — as the error. -/
theorem sendToWebhook_transport_failure (data : FormData) (err : String) (h : err ≠ "") :
    sendToWebhook data (fun _ => FetchOutcome.failure err) = ⟨false, none, none, some err⟩ ∧
    ∃ s, (sendToWebhook data (fun _ => FetchOutcome.failure err)).error = some s ∧ s ≠ "" :=
  ⟨rfl, err, rfl, h⟩

/-- Witness for C5: an unreachable endpoint yields a failure result with no
status code and the failure description as the error. -/
theorem sendToWebhook_transport_failure_witness :
    sendToWebhook emptyFormData (fun _ => FetchOutcome.failure "DNS error: unreachable") =
      ⟨false, none, none, some "DNS error: unreachable"⟩ :=
  (sendToWebhook_transport_failure emptyFormData "DNS error: unreachable" (by decide)).1

set_option maxRecDepth 8192 in
/-- Claim C6: for every raw row the attendance field produced by
`getFormData` equals its response field, the JSON payload built by
`sendToWebhook` carries equal attendance and response values, and for a row
answering "Yes, I'll attend" the serialized JSON contains both keys with
exactly that value. -/
theorem attendance_mirrors_response :
    (∀ (row : List Cell) (now : String),
      (getFormData row now).attendance = (getFormData row now).response ∧
      (buildPayload (getFormData row now)).attendance =
        (buildPayload (getFormData row now)).response) ∧
    jsonOfPayload (buildPayload (getFormData
      [Cell.empty, Cell.str "Test User", Cell.str "test@example.com",
       Cell.str "+968 1234 5678", Cell.str "en", Cell.empty, Cell.empty, Cell.empty,
       Cell.empty, Cell.empty, Cell.empty, Cell.str "Yes, I'll attend"]
      "2026-01-01T00:00:00.000Z")) =
      "\x7b\"timestamp\":\"2026-01-01T00:00:00.000Z\",\"name\":\"Test User\",\"email\":\"test@example.com\",\"phone\":\"+968 1234 5678\",\"language\":\"en\",\"status\":\"\",\"attendance\":\"Yes, I'll attend\",\"response\":\"Yes, I'll attend\",\"responseDate\":\"\",\"comments\":\"\"\x7d" := by
  constructor
  · intro row now
    constructor
    · simp [getFormData, jsOr_empty_idem, jsOr_self]
    · simp [getFormData, buildPayload, jsOr_empty_idem, jsOr_self]
  · decide

/-- Counterexample to C7 as stated: under `getFormDataV2` a whitespace-only
language cell does NOT normalize to "en" — the default is substituted for
the raw (truthy) value before trimming, so the field trims to the empty
string. -/
theorem language_whitespace_not_default_cx :
    (getFormDataV2 [Cell.empty, Cell.empty, Cell.empty, Cell.str " "]
      "2026-01-01T00:00:00.000Z").language = Cell.str "" ∧
    Cell.str "" ≠ Cell.str "en" := by decide

/-- Claim C7 (amended): for the non-timestamp fields `getFormDataV2`
substitutes the documented default for the raw cell value when that raw
value is falsy and only then coerces to string and trims (lowercasing
language): an empty or absent language cell normalizes to "en" (but a
whitespace-only one trims to "", not "en"), a string-valued language cell is
trimmed and lowercased, a string-valued name cell is trimmed, and blank
status/response cells default to the empty string. -/
theorem getFormDataV2_defaults_before_trim (row : List Cell) (now : String) :
    ((getCell row (COLUMN_MAPPING_B.LANGUAGE - 1) = Cell.empty ∨
      getCell row (COLUMN_MAPPING_B.LANGUAGE - 1) = Cell.str "") →
      (getFormDataV2 row now).language = Cell.str "en") ∧
    (∀ s, getCell row (COLUMN_MAPPING_B.LANGUAGE - 1) = Cell.str s → s ≠ "" →
      (getFormDataV2 row now).language = Cell.str (jsToLower (jsTrim s))) ∧
    (∀ s, getCell row (COLUMN_MAPPING_B.NAME - 1) = Cell.str s →
      (getFormDataV2 row now).name = Cell.str (jsTrim s)) ∧
    ((getCell row (COLUMN_MAPPING_B.STATUS - 1) = Cell.empty ∨
      getCell row (COLUMN_MAPPING_B.STATUS - 1) = Cell.str "") →
      (getFormDataV2 row now).status = Cell.str "") ∧
    ((getCell row (COLUMN_MAPPING_B.RESPONSE - 1) = Cell.empty ∨
      getCell row (COLUMN_MAPPING_B.RESPONSE - 1) = Cell.str "") →
      (getFormDataV2 row now).response = Cell.str "") := by
  refine ⟨?_, ?_, ?_, ?_, ?_⟩
  · rintro (h | h) <;> simp [getFormDataV2, h, jsOr, jsTruthy, cellToString] <;> decide
  · intro s h hs
    simp [getFormDataV2, h, jsOr, jsTruthy, cellToString, hs]
  · intro s h
    by_cases hs : s = ""
    · subst hs
      simp [getFormDataV2, h, jsOr, jsTruthy, cellToString]
    · simp [getFormDataV2, h, jsOr, jsTruthy, cellToString, hs]
  · rintro (h | h) <;> simp [getFormDataV2, h, jsOr, jsTruthy, cellToString] <;> decide
  · rintro (h | h) <;> simp [getFormDataV2, h, jsOr, jsTruthy, cellToString] <;> decide

/-- Witness for C7 (amended): an empty language cell defaults to "en" and a
name cell is trimmed. -/
theorem getFormDataV2_defaults_before_trim_witness :
    (getFormDataV2 [Cell.str "  Ada  ", Cell.empty, Cell.empty, Cell.str ""]
      "2026-01-01T00:00:00.000Z").language = Cell.str "en" ∧
    (getFormDataV2 [Cell.str "  Ada  ", Cell.empty, Cell.empty, Cell.str ""]
      "2026-01-01T00:00:00.000Z").name = Cell.str "Ada" := by
  constructor
  · exact (getFormDataV2_defaults_before_trim [Cell.str "  Ada  ", Cell.empty, Cell.empty,
      Cell.str ""] "2026-01-01T00:00:00.000Z").1 (Or.inr (by decide))
  · have h := (getFormDataV2_defaults_before_trim [Cell.str "  Ada  ", Cell.empty, Cell.empty,
      Cell.str ""] "2026-01-01T00:00:00.000Z").2.2.1 "  Ada  " (by decide)
    rw [h]
    decide

/-- Claim C8: invoking a trigger handler without a trigger event context
(event absent or lacking a `source`) performs no webhook call and returns as
a no-op: variant B detects it explicitly (`noEvent`), and variant A's
top-level catch turns the resulting TypeError into a logged return
(`faultCaught`) — in both variants no fault propagates and the list of
webhook calls is empty. -/
theorem onFormSubmit_missing_event_noop (fetch : Payload → FetchOutcome) (now : String) :
    onFormSubmitB none fetch now = (TriggerResult.noEvent, []) ∧
    (∀ ev : Event, ev.source = none →
      onFormSubmitB (some ev) fetch now = (TriggerResult.noEvent, [])) ∧
    onFormSubmit none fetch now = (TriggerResult.faultCaught, []) ∧
    (∀ ev : Event, ev.source = none →
      onFormSubmit (some ev) fetch now = (TriggerResult.faultCaught, [])) := by
  refine ⟨rfl, ?_, rfl, ?_⟩ <;> intro ev h <;> simp [onFormSubmitB, onFormSubmit, h]

/-- Witness for C8: a manual run with no event and a run with an event
lacking a `source` are both no-ops with no webhook call. -/
theorem onFormSubmit_missing_event_noop_witness :
    onFormSubmitB none (fun _ => FetchOutcome.response 200 "OK") "2026-01-01T00:00:00.000Z" =
      (TriggerResult.noEvent, []) ∧
    onFormSubmitB (some ⟨none⟩) (fun _ => FetchOutcome.response 200 "OK")
      "2026-01-01T00:00:00.000Z" = (TriggerResult.noEvent, []) :=
  ⟨(onFormSubmit_missing_event_noop (fun _ => FetchOutcome.response 200 "OK")
      "2026-01-01T00:00:00.000Z").1,
   (onFormSubmit_missing_event_noop (fun _ => FetchOutcome.response 200 "OK")
      "2026-01-01T00:00:00.000Z").2.1 ⟨none⟩ rfl⟩

/-- Claim C9: `getFormData` is a total function of the raw row (the
embedding mirrors every guarded operation of the source, which has no
throwing path), and on any row all of whose cells are absent or falsy —
including rows shorter than the column mapping expects, whose out-of-range
indices read as `undefined` — every field degrades to its documented
default: the current time for the timestamp, "en" for language, and the
empty string for everything else. -/
theorem getFormData_total_defaults (now : String) (row : List Cell)
    (h : ∀ c ∈ row, jsTruthy c = false) :
    getFormData row now =
      ⟨Cell.str now, Cell.str "", Cell.str "", Cell.str "", Cell.str "en", Cell.str "",
       Cell.str "", Cell.str "", Cell.str "", Cell.str ""⟩ := by
  have ht : ∀ i, jsTruthy (getCell row i) = false := fun i => jsTruthy_getCell_false row i h
  simp [getFormData, jsOr, ht]
  simp [jsTruthy]

/-- Witness for C9: a malformed four-cell row (number 0, boolean false,
empty string) normalizes to the all-defaults record. -/
theorem getFormData_total_defaults_witness :
    getFormData [Cell.num 0, Cell.boolean false, Cell.str "", Cell.num 0]
      "2026-01-01T00:00:00.000Z" =
      ⟨Cell.str "2026-01-01T00:00:00.000Z", Cell.str "", Cell.str "", Cell.str "",
       Cell.str "en", Cell.str "", Cell.str "", Cell.str "", Cell.str "", Cell.str ""⟩ :=
  getFormData_total_defaults "2026-01-01T00:00:00.000Z"
    [Cell.num 0, Cell.boolean false, Cell.str "", Cell.num 0] (by decide)

/-- Claim C10: a mapped cell holding a falsy non-string value (the number 0,
the boolean false) is treated as absent by `getFormData`: the field
normalizes to its default — empty string, or "en" for language — and never
to the string rendering of the value; in particular a phone cell holding the
number 0 normalizes to "", not "0". -/
theorem getFormData_falsy_cells_default (row : List Cell) (now : String) :
    (jsTruthy (getCell row (COLUMN_MAPPING.PHONE - 1)) = false →
      (getFormData row now).phone = Cell.str "") ∧
    (jsTruthy (getCell row (COLUMN_MAPPING.LANGUAGE - 1)) = false →
      (getFormData row now).language = Cell.str "en") ∧
    (jsTruthy (getCell row (COLUMN_MAPPING.NAME - 1)) = false →
      (getFormData row now).name = Cell.str "") ∧
    (getFormData [Cell.empty, Cell.empty, Cell.empty, Cell.num 0] "T").phone = Cell.str "" := by
  refine ⟨?_, ?_, ?_, by decide⟩ <;> intro h <;> simp [getFormData, jsOr, h] <;> simp [jsTruthy]

/-- Witness for C10: a row with boolean-false name cell and number-0 phone
and language cells normalizes those fields to their defaults. -/
theorem getFormData_falsy_cells_default_witness :
    (getFormData [Cell.empty, Cell.boolean false, Cell.empty, Cell.num 0, Cell.num 0]
      "2026-01-01T00:00:00.000Z").phone = Cell.str "" ∧
    (getFormData [Cell.empty, Cell.boolean false, Cell.empty, Cell.num 0, Cell.num 0]
      "2026-01-01T00:00:00.000Z").language = Cell.str "en" ∧
    (getFormData [Cell.empty, Cell.boolean false, Cell.empty, Cell.num 0, Cell.num 0]
      "2026-01-01T00:00:00.000Z").name = Cell.str "" :=
  ⟨(getFormData_falsy_cells_default [Cell.empty, Cell.boolean false, Cell.empty, Cell.num 0,
      Cell.num 0] "2026-01-01T00:00:00.000Z").1 (by decide),
   (getFormData_falsy_cells_default [Cell.empty, Cell.boolean false, Cell.empty, Cell.num 0,
      Cell.num 0] "2026-01-01T00:00:00.000Z").2.1 (by decide),
   (getFormData_falsy_cells_default [Cell.empty, Cell.boolean false, Cell.empty, Cell.num 0,
      Cell.num 0] "2026-01-01T00:00:00.000Z").2.2.1 (by decide)⟩

end WebhookTrigger
